import Mathlib

/-!
Verification development for the namecheap-mcp repository.

Shallow embedding of:
  - the domain splitter of src/utils.py (extract_domain_parts);
  - the XML response handling and request building of the Namecheap client
    in src/namecheap.py (the error check of _make_request, the parsing
    helper _parse_host_records, and the parse and request stages of the
    DNS operations set_default, set_custom, get_dns_list, get_hosts,
    set_hosts);
  - the tool layer of src/main.py (the add_host composite, the
    environment-derived sandbox flag, and the attribute lookups performed
    by the set_default_dns and set_custom_dns tool wrappers).

XML documents are modelled as trees whose nodes carry a namespace URI, a
tag, an attribute list, optional text and children; ElementTree paths of
the form .//ns:tag are modelled by a filter over the list of proper
descendants in document order. Python exceptions are modelled by Except;
the transport is modelled by passing each operation the response root it
would have received, so an operation is a pure function of its inputs and
that response.
-/

namespace NamecheapMCP

/-- Errors the embedded code can raise: ValueError with its message,
the formatted Namecheap API error of _make_request with the error number
and message it carries, the generic unknown API error of _make_request,
and Python attribute lookup failure. -/
inductive NCError where
  | valueError (msg : String)
  | apiError (number : String) (message : String)
  | unknownApiError
  | attrError (name : String)
deriving DecidableEq, Repr

/-- Python str.split with a single-character separator, on the character
list of the string: always returns at least one (possibly empty) segment,
and adjacent separators yield empty segments. -/
def splitOnChar (c : Char) : List Char → List (List Char)
  | [] => [[]]
  | x :: xs =>
    if x = c then [] :: splitOnChar c xs
    else
      match splitOnChar c xs with
      | [] => [[x]]
      | y :: ys => (x :: y) :: ys

/-- Python sep.join on character lists: interleaves the separator between
the segments. -/
def joinWith (c : Char) : List (List Char) → List Char
  | [] => []
  | [x] => x
  | x :: y :: ys => x ++ c :: joinWith c (y :: ys)

/-- src/utils.py extract_domain_parts: split the domain name on the dot;
with at least two segments return the first segment and the remaining
segments rejoined with dots, otherwise raise ValueError. -/
def extract_domain_parts (domain_name : String) : Except NCError (String × String) :=
  match splitOnChar '.' domain_name.data with
  | p0 :: p1 :: rest =>
      Except.ok (String.mk p0, String.mk (joinWith '.' (p1 :: rest)))
  | _ => Except.error (NCError.valueError ("Invalid domain name: " ++ domain_name))

/-- An XML element: namespace URI, local tag, attribute list, optional
text content, child elements. An element parsed from an unnamespaced tag
has the empty string as its namespace. -/
inductive Elem : Type where
  | mk (ns : String) (tag : String) (attrib : List (String × String))
       (text : Option String) (children : List Elem)

/-- Namespace URI of an element. -/
def Elem.ns : Elem → String
  | .mk n _ _ _ _ => n

/-- Local tag of an element. -/
def Elem.tag : Elem → String
  | .mk _ t _ _ _ => t

/-- Attribute list of an element. -/
def Elem.attrib : Elem → List (String × String)
  | .mk _ _ a _ _ => a

/-- Text content of an element. -/
def Elem.text : Elem → Option String
  | .mk _ _ _ t _ => t

/-- Child elements of an element. -/
def Elem.children : Elem → List Elem
  | .mk _ _ _ _ c => c

mutual
/-- All proper descendants of an element, in document order. -/
def Elem.descendants : Elem → List Elem
  | .mk _ _ _ _ cs => descendantsList cs

/-- All elements of a forest together with their proper descendants, in
document order. -/
def descendantsList : List Elem → List Elem
  | [] => []
  | c :: rest => c :: (Elem.descendants c ++ descendantsList rest)
end

/-- ElementTree findall with a .//prefix:tag path: every proper
descendant whose namespace and tag match, in document order. -/
def Elem.findall (e : Elem) (ns tag : String) : List Elem :=
  (Elem.descendants e).filter (fun c => c.ns == ns && c.tag == tag)

/-- ElementTree find with a .//prefix:tag path: the first matching proper
descendant in document order, if any. -/
def Elem.find (e : Elem) (ns tag : String) : Option Elem :=
  (e.findall ns tag).head?

/-- Python element.attrib.get(key) with no default. -/
def Elem.attr? (e : Elem) (k : String) : Option String :=
  (e.attrib).lookup k

/-- Python element.attrib.get(key, default). -/
def Elem.attrD (e : Elem) (k d : String) : String :=
  (e.attr? k).getD d

/-- Python truthiness of an optional string: false for None and for the
empty string. -/
def pyStrTruthy : Option String → Bool
  | some s => s != ""
  | none => false

/-- Python (value or default) for an optional string value. -/
def pyOr (v : Option String) (d : String) : String :=
  if pyStrTruthy v then v.getD d else d

/-- Python str.lower, modelled character-wise; the values compared by
the client are ASCII attribute strings, on which this agrees with the
Python method. -/
def strLower (s : String) : String :=
  String.mk (s.data.map Char.toLower)

/-- The repeated idiom of the client source comparing s.lower() with the
string true. -/
def strIsTrue (s : String) : Bool :=
  strLower s == "true"

/-- The fixed Namecheap response namespace of the client class. -/
def ncNS : String := "http://api.namecheap.com/xml.response"

/-- The error-check stage of Namecheap._make_request, applied to the
parsed response root: on Status ERROR, raise the formatted API error
built from the first namespaced Error descendant (its Number attribute
defaulting to Unknown, its text with Unknown error when falsy), or the
generic unknown API error when no such element exists; otherwise return
the root. -/
def checkResponse (root : Elem) : Except NCError Elem :=
  if root.attr? "Status" = some "ERROR" then
    match root.findall ncNS "Error" with
    | error :: _ =>
        Except.error (NCError.apiError (error.attrD "Number" "Unknown")
          (pyOr error.text "Unknown error"))
    | [] => Except.error NCError.unknownApiError
  else
    Except.ok root

/-- A host record dictionary as produced by _parse_host_records: the six
string fields HostId, Name, Type, Address, MXPref, TTL. -/
structure HostRecord where
  hostId : String
  name : String
  rtype : String
  address : String
  mxPref : String
  ttl : String
deriving DecidableEq, Repr

/-- Namecheap._parse_host_records: one record per namespaced host
descendant of the given element, in document order, each field read from
the attribute of the same name with the empty string as default. -/
def parse_host_records (root : Elem) : List HostRecord :=
  (root.findall ncNS "host").map (fun h =>
    { hostId := h.attrD "HostId" "", name := h.attrD "Name" "",
      rtype := h.attrD "Type" "", address := h.attrD "Address" "",
      mxPref := h.attrD "MXPref" "", ttl := h.attrD "TTL" "" })

/-- Values appearing in the result dictionaries of the DNS operations. -/
inductive RVal where
  | s (v : String)
  | b (v : Bool)
  | strList (v : List String)
  | hostList (v : List HostRecord)
deriving DecidableEq, Repr

/-- The parse stage of Namecheap.set_default. -/
def set_default_parse (root : Elem) : List (String × RVal) :=
  match root.find ncNS "DomainDNSSetDefaultResult" with
  | some result =>
      [("Domain", RVal.s (result.attrD "Domain" "")),
       ("Updated", RVal.b (strIsTrue (result.attrD "Updated" "")))]
  | none => [("Updated", RVal.b false)]

/-- The parse stage of Namecheap.set_custom. -/
def set_custom_parse (root : Elem) : List (String × RVal) :=
  match root.find ncNS "DomainDNSSetCustomResult" with
  | some result =>
      [("Domain", RVal.s (result.attrD "Domain" "")),
       ("Updated", RVal.b (strIsTrue (result.attrD "Updated" "")))]
  | none => [("Updated", RVal.b false)]

/-- The parse stage of Namecheap.get_dns_list: on a present result
element, the Domain and IsUsingOurDNS attributes together with the text
of every namespaced Nameserver descendant whose text is truthy; on an
absent result element, a dictionary holding only an empty nameserver
list. -/
def get_dns_list_parse (root : Elem) : List (String × RVal) :=
  match root.find ncNS "DomainDNSGetListResult" with
  | some result =>
      [("Domain", RVal.s (result.attrD "Domain" "")),
       ("IsUsingOurDNS", RVal.b (strIsTrue (result.attrD "IsUsingOurDNS" ""))),
       ("Nameservers", RVal.strList ((result.findall ncNS "Nameserver").filterMap
         (fun nse => if pyStrTruthy nse.text then nse.text else none)))]
  | none => [("Nameservers", RVal.strList [])]

/-- The parse stage of Namecheap.get_hosts: on a present result element,
the Domain and IsUsingOurDNS attributes together with the parsed host
records; on an absent result element, a dictionary holding only an empty
host list. -/
def get_hosts_parse (root : Elem) : List (String × RVal) :=
  match root.find ncNS "DomainDNSGetHostsResult" with
  | some result =>
      [("Domain", RVal.s (result.attrD "Domain" "")),
       ("IsUsingOurDNS", RVal.b (strIsTrue (result.attrD "IsUsingOurDNS" ""))),
       ("Hosts", RVal.hostList (parse_host_records result))]
  | none => [("Hosts", RVal.hostList [])]

/-- The parse stage of Namecheap.set_hosts: on a present result element,
the Domain and IsSuccess attributes, and a Hosts list that re-parses the
namespaced host records only when the unnamespaced findall for raw host
tags returns a non-empty list, and is empty otherwise; on an absent
result element, IsSuccess false and an empty host list. -/
def set_hosts_parse (root : Elem) : List (String × RVal) :=
  match root.find ncNS "DomainDNSSetHostsResult" with
  | some result =>
      [("Domain", RVal.s (result.attrD "Domain" "")),
       ("IsSuccess", RVal.b (strIsTrue (result.attrD "IsSuccess" ""))),
       ("Hosts", RVal.hostList
         (match result.findall "" "host" with
          | [] => []
          | _ :: _ => parse_host_records result))]
  | none => [("IsSuccess", RVal.b false), ("Hosts", RVal.hostList [])]

/-- The operation-specific request of a client call: the Command value
and the operation parameters passed to _make_request. -/
structure Request where
  command : String
  params : List (String × String)
deriving DecidableEq, Repr

/-- Python dict assignment d[k] = v on an insertion-ordered dictionary:
overwrite in place when the key exists, append otherwise. -/
def dictSet : List (String × String) → String → String → List (String × String)
  | [], k, v => [(k, v)]
  | (k0, v0) :: rest, k, v =>
      if k0 = k then (k0, v) :: rest else (k0, v0) :: dictSet rest k v

/-- The body of the parameter-building loop of Namecheap.set_hosts for
the host at zero-based index i: HostName, RecordType and Address suffixed
with i plus one, then for MX records the suffixed MXPref and the shared
EmailType key, then the suffixed TTL. -/
def addHostParams (p : List (String × String)) (i : Nat) (h : HostRecord) :
    List (String × String) :=
  let p1 := dictSet p ("HostName" ++ toString (i + 1)) h.name
  let p2 := dictSet p1 ("RecordType" ++ toString (i + 1)) h.rtype
  let p3 := dictSet p2 ("Address" ++ toString (i + 1)) h.address
  let p4 :=
    if h.rtype = "MX" then
      dictSet (dictSet p3 ("MXPref" ++ toString (i + 1)) h.mxPref) "EmailType" "MX"
    else p3
  dictSet p4 ("TTL" ++ toString (i + 1)) h.ttl

/-- The parameter dictionary Namecheap.set_hosts passes to _make_request:
SLD and TLD followed by the indexed per-record parameters. -/
def set_hosts_params (sld tld : String) (hosts : List HostRecord) :
    List (String × String) :=
  (hosts.enum).foldl (fun p ih => addHostParams p ih.1 ih.2)
    [("SLD", sld), ("TLD", tld)]

/-- Namecheap.set_default as a function of the domain name and of the
response root the transport would return: split the domain, build the
request, check the response, parse the result. -/
def set_default_op (domain_name : String) (root : Elem) :
    Except NCError (Request × List (String × RVal)) :=
  match extract_domain_parts domain_name with
  | Except.error e => Except.error e
  | Except.ok (sld, tld) =>
    match checkResponse root with
    | Except.error e => Except.error e
    | Except.ok r =>
        Except.ok (⟨"namecheap.domains.dns.setDefault",
          [("SLD", sld), ("TLD", tld)]⟩, set_default_parse r)

/-- Namecheap.set_custom as a function of the domain name, the nameserver
list and the response root: split the domain, raise ValueError for more
than twelve nameservers before any request exists, otherwise send the
comma-joined nameservers as a single parameter and parse the response. -/
def set_custom_op (domain_name : String) (nameservers : List String)
    (root : Elem) : Except NCError (Request × List (String × RVal)) :=
  match extract_domain_parts domain_name with
  | Except.error e => Except.error e
  | Except.ok (sld, tld) =>
    if nameservers.length > 12 then
      Except.error (NCError.valueError "Maximum of 12 nameservers allowed")
    else
      match checkResponse root with
      | Except.error e => Except.error e
      | Except.ok r =>
          Except.ok (⟨"namecheap.domains.dns.setCustom",
            [("SLD", sld), ("TLD", tld),
             ("Nameservers", String.intercalate "," nameservers)]⟩,
            set_custom_parse r)

/-- Namecheap.get_dns_list as a function of the domain name and the
response root. -/
def get_dns_list_op (domain_name : String) (root : Elem) :
    Except NCError (Request × List (String × RVal)) :=
  match extract_domain_parts domain_name with
  | Except.error e => Except.error e
  | Except.ok (sld, tld) =>
    match checkResponse root with
    | Except.error e => Except.error e
    | Except.ok r =>
        Except.ok (⟨"namecheap.domains.dns.getList",
          [("SLD", sld), ("TLD", tld)]⟩, get_dns_list_parse r)

/-- Namecheap.get_hosts as a function of the domain name and the response
root. -/
def get_hosts_op (domain_name : String) (root : Elem) :
    Except NCError (Request × List (String × RVal)) :=
  match extract_domain_parts domain_name with
  | Except.error e => Except.error e
  | Except.ok (sld, tld) =>
    match checkResponse root with
    | Except.error e => Except.error e
    | Except.ok r =>
        Except.ok (⟨"namecheap.domains.dns.getHosts",
          [("SLD", sld), ("TLD", tld)]⟩, get_hosts_parse r)

/-- Namecheap.set_hosts as a function of the domain name, the record list
and the response root. -/
def set_hosts_op (domain_name : String) (hosts : List HostRecord)
    (root : Elem) : Except NCError (Request × List (String × RVal)) :=
  match extract_domain_parts domain_name with
  | Except.error e => Except.error e
  | Except.ok (sld, tld) =>
    match checkResponse root with
    | Except.error e => Except.error e
    | Except.ok r =>
        Except.ok (⟨"namecheap.domains.dns.setHosts",
          set_hosts_params sld tld hosts⟩, set_hosts_parse r)

/-- Reading the Hosts entry of a get_hosts result dictionary, as the
add_host tool does; get_hosts always writes this entry, so the fallback
for a missing or differently typed entry is unreachable on its outputs. -/
def dictHosts (d : List (String × RVal)) : List HostRecord :=
  match d.lookup "Hosts" with
  | some (RVal.hostList hs) => hs
  | _ => []

/-- One client call made by the tool layer, recorded with the Python
level arguments it receives. -/
inductive ClientCall where
  | getHostsCall (domain_name : String)
  | setHostsCall (domain_name : String) (hosts : List HostRecord)
deriving DecidableEq, Repr

/-- The add_host tool of src/main.py, as a function of the domain name,
the caller-supplied new records and the two response roots of its calls:
call get_hosts, extend the caller list with the pre-existing records (new
records first), call set_hosts with the combined list, and report the
calls made in order. -/
def add_host (domain_name : String) (hosts : List HostRecord)
    (getRoot setRoot : Elem) :
    Except NCError (List ClientCall × List (String × RVal)) :=
  match get_hosts_op domain_name getRoot with
  | Except.error e => Except.error e
  | Except.ok (_, getDict) =>
    let combined := hosts ++ dictHosts getDict
    match set_hosts_op domain_name combined setRoot with
    | Except.error e => Except.error e
    | Except.ok (_, setDict) =>
        Except.ok ([ClientCall.getHostsCall domain_name,
                    ClientCall.setHostsCall domain_name combined], setDict)

/-- The sandbox flag computed in src/main.py from the SANDBOX environment
value: the value, defaulting to the string true when unset, lowercased
and compared with the string true. -/
def sandbox_env_flag (v : Option String) : Bool :=
  strIsTrue (v.getD "true")

/-- The base URL chosen by Namecheap.__init__ from the sandbox flag. -/
def base_url (sandbox : Bool) : String :=
  if sandbox then "https://api.sandbox.namecheap.com/xml.response"
  else "https://api.namecheap.com/xml.response"

/-- The method names defined on the Namecheap class of
src/namecheap.py. -/
def namecheap_class_methods : List String :=
  ["__init__", "_make_request", "_parse_host_records",
   "_parse_email_forwarding", "set_default", "set_custom", "get_dns_list",
   "get_hosts", "get_email_forwarding", "set_email_forwarding",
   "set_hosts", "get_domains", "get_domain_info",
   "check_domains_availability"]

/-- Python attribute lookup on the client instance: the method when the
class defines it, AttributeError otherwise. -/
def getattr_namecheap (name : String) : Except NCError String :=
  if name ∈ namecheap_class_methods then Except.ok name
  else Except.error (NCError.attrError name)

/-- The first action of the set_default_dns tool wrapper of src/main.py:
resolve the set_default_dns attribute on the client; the wrapper builds
no request unless this lookup succeeds. -/
def tool_set_default_dns (_domain_name : String) : Except NCError String :=
  getattr_namecheap "set_default_dns"

/-- The first action of the set_custom_dns tool wrapper of src/main.py:
resolve the set_custom_dns attribute on the client; the wrapper builds no
request unless this lookup succeeds. -/
def tool_set_custom_dns (_domain_name : String) (_nameservers : List String) :
    Except NCError String :=
  getattr_namecheap "set_custom_dns"

/-- A canned ERROR response whose Errors element carries one namespaced
Error element with number 2019166 and text Domain not found. -/
def errorResponseDoc : Elem :=
  Elem.mk ncNS "ApiResponse" [("Status", "ERROR")] none
    [Elem.mk ncNS "Errors" [] none
      [Elem.mk ncNS "Error" [("Number", "2019166")] (some "Domain not found") []]]

/-- A canned ERROR response with no error element at all. -/
def errorResponseNoElemDoc : Elem :=
  Elem.mk ncNS "ApiResponse" [("Status", "ERROR")] none []

/-- A canned success response that carries no result element of any
operation. -/
def okEmptyDoc : Elem :=
  Elem.mk ncNS "ApiResponse" [("Status", "OK")] none
    [Elem.mk ncNS "CommandResponse" [] none []]

/-- A namespaced host element for an A record of the root label; it has
no MXPref attribute. -/
def hostElemA1 : Elem :=
  Elem.mk ncNS "host"
    [("HostId", "1"), ("Name", "@"), ("Type", "A"), ("Address", "1.2.3.4"),
     ("TTL", "1800")] none []

/-- A namespaced host element for an A record of the www label; it has no
MXPref attribute. -/
def hostElemA2 : Elem :=
  Elem.mk ncNS "host"
    [("HostId", "2"), ("Name", "www"), ("Type", "A"), ("Address", "1.2.3.5"),
     ("TTL", "1800")] none []

/-- A namespaced host element for an MX record carrying an MXPref
attribute. -/
def hostElemMX : Elem :=
  Elem.mk ncNS "host"
    [("HostId", "3"), ("Name", "@"), ("Type", "MX"),
     ("Address", "mail.example.com"), ("MXPref", "10"), ("TTL", "1800")] none []

/-- The result element of a canned get_hosts success response listing two
A records and one MX record. -/
def getHostsResultElem : Elem :=
  Elem.mk ncNS "DomainDNSGetHostsResult"
    [("Domain", "example.com"), ("IsUsingOurDNS", "true")] none
    [hostElemA1, hostElemA2, hostElemMX]

/-- A canned get_hosts success response listing two A records and one MX
record. -/
def getHostsDoc : Elem :=
  Elem.mk ncNS "ApiResponse" [("Status", "OK")] none
    [Elem.mk ncNS "CommandResponse" [] none [getHostsResultElem]]

/-- The result element of a canned fully namespaced set_hosts success
response that echoes two namespaced host elements. -/
def setHostsResultElem : Elem :=
  Elem.mk ncNS "DomainDNSSetHostsResult"
    [("Domain", "example.com"), ("IsSuccess", "true")] none
    [hostElemA1, hostElemMX]

/-- A canned fully namespaced set_hosts success response. -/
def setHostsDoc : Elem :=
  Elem.mk ncNS "ApiResponse" [("Status", "OK")] none
    [Elem.mk ncNS "CommandResponse" [] none [setHostsResultElem]]

/-- The parsed record of hostElemA1. -/
def recA1 : HostRecord := ⟨"1", "@", "A", "1.2.3.4", "", "1800"⟩

/-- The parsed record of hostElemA2. -/
def recA2 : HostRecord := ⟨"2", "www", "A", "1.2.3.5", "", "1800"⟩

/-- The parsed record of hostElemMX. -/
def recMX : HostRecord := ⟨"3", "@", "MX", "mail.example.com", "10", "1800"⟩

/-- A caller-supplied new record for the add_host composite. -/
def recNew : HostRecord := ⟨"", "blog", "A", "9.9.9.9", "", "1800"⟩

theorem splitOnChar_ne_nil (c : Char) (l : List Char) : splitOnChar c l ≠ [] := by
  induction l with
  | nil => simp [splitOnChar]
  | cons x xs _ =>
    simp only [splitOnChar]
    split
    · simp
    · split
      · simp
      · simp

theorem joinWith_splitOnChar (c : Char) (l : List Char) :
    joinWith c (splitOnChar c l) = l := by
  induction l with
  | nil => rfl
  | cons x xs ih =>
    simp only [splitOnChar]
    by_cases hx : x = c
    · rw [if_pos hx]
      rcases hsp : splitOnChar c xs with _ | ⟨y, ys⟩
      · exact absurd hsp (splitOnChar_ne_nil c xs)
      · rw [hsp] at ih
        subst hx
        exact congrArg (List.cons x) ih
    · rw [if_neg hx]
      rcases hsp : splitOnChar c xs with _ | ⟨y, ys⟩
      · exact absurd hsp (splitOnChar_ne_nil c xs)
      · rw [hsp] at ih
        cases ys with
        | nil => exact congrArg (List.cons x) ih
        | cons z zs => exact congrArg (List.cons x) ih

theorem two_le_splitOnChar_length (c : Char) (l : List Char) (h : c ∈ l) :
    2 ≤ (splitOnChar c l).length := by
  induction l with
  | nil => cases h
  | cons x xs ih =>
    simp only [splitOnChar]
    by_cases hx : x = c
    · rw [if_pos hx]
      rcases hsp : splitOnChar c xs with _ | ⟨y, ys⟩
      · exact absurd hsp (splitOnChar_ne_nil c xs)
      · simp
    · rw [if_neg hx]
      have hmem : c ∈ xs := by
        rcases List.mem_cons.mp h with h1 | h2
        · exact absurd h1.symm hx
        · exact h2
      have ih2 := ih hmem
      rcases hsp : splitOnChar c xs with _ | ⟨y, ys⟩
      · exact absurd hsp (splitOnChar_ne_nil c xs)
      · rw [hsp] at ih2
        simp only [List.length_cons] at ih2 ⊢
        omega

theorem splitOnChar_not_mem (c : Char) (l : List Char) (h : c ∉ l) :
    splitOnChar c l = [l] := by
  induction l with
  | nil => rfl
  | cons x xs ih =>
    simp only [splitOnChar]
    have hx : ¬ x = c := fun hh => h (hh ▸ List.mem_cons_self x xs)
    rw [if_neg hx, ih (fun hm => h (List.mem_cons_of_mem x hm))]

theorem checkResponse_ok (root : Elem)
    (hst : ¬ root.attr? "Status" = some "ERROR") :
    checkResponse root = Except.ok root := by
  simp [checkResponse, hst]

theorem get_hosts_op_ok (d sld tld : String) (root : Elem)
    (hex : extract_domain_parts d = Except.ok (sld, tld))
    (hst : ¬ root.attr? "Status" = some "ERROR") :
    get_hosts_op d root = Except.ok
      (⟨"namecheap.domains.dns.getHosts", [("SLD", sld), ("TLD", tld)]⟩,
       get_hosts_parse root) := by
  simp only [get_hosts_op, hex, checkResponse_ok root hst]

theorem get_dns_list_op_ok (d sld tld : String) (root : Elem)
    (hex : extract_domain_parts d = Except.ok (sld, tld))
    (hst : ¬ root.attr? "Status" = some "ERROR") :
    get_dns_list_op d root = Except.ok
      (⟨"namecheap.domains.dns.getList", [("SLD", sld), ("TLD", tld)]⟩,
       get_dns_list_parse root) := by
  simp only [get_dns_list_op, hex, checkResponse_ok root hst]

theorem set_hosts_op_ok (d sld tld : String) (hosts : List HostRecord)
    (root : Elem)
    (hex : extract_domain_parts d = Except.ok (sld, tld))
    (hst : ¬ root.attr? "Status" = some "ERROR") :
    set_hosts_op d hosts root = Except.ok
      (⟨"namecheap.domains.dns.setHosts", set_hosts_params sld tld hosts⟩,
       set_hosts_parse root) := by
  simp only [set_hosts_op, hex, checkResponse_ok root hst]

/-- Claim C1: for every API call, when the parsed response root has
Status ERROR and the document contains at least one namespaced Error
element, the operation fails carrying exactly the first such element's
numeric code attribute and its text content as the message; when the
Status is ERROR but no error element is present, it fails with the
generic failure carrying no code. -/
theorem make_request_error_mapping (root : Elem)
    (hst : root.attr? "Status" = some "ERROR") :
    (∀ err rest code msg,
        root.findall ncNS "Error" = err :: rest →
        err.attr? "Number" = some code →
        err.text = some msg → msg ≠ "" →
        checkResponse root = Except.error (NCError.apiError code msg)) ∧
    (root.findall ncNS "Error" = [] →
        checkResponse root = Except.error NCError.unknownApiError) := by
  constructor
  · intro err rest code msg hfind hnum htext hmsg
    have h1 : err.attrD "Number" "Unknown" = code := by
      rw [Elem.attrD, hnum]
      rfl
    have h2 : pyOr err.text "Unknown error" = msg := by
      rw [htext]
      simp [pyOr, pyStrTruthy, hmsg]
    simp only [checkResponse, if_pos hst, hfind, h1, h2]
  · intro hfind
    simp only [checkResponse, if_pos hst, hfind]

/-- Witness for C1 at the canned ERROR responses: the response carrying
error number 2019166 with text Domain not found fails with exactly that
code and message, and the ERROR response without an error element fails
with the generic failure. -/
theorem make_request_error_mapping_witness :
    errorResponseDoc.attr? "Status" = some "ERROR" ∧
    errorResponseNoElemDoc.attr? "Status" = some "ERROR" ∧
    checkResponse errorResponseDoc =
      Except.error (NCError.apiError "2019166" "Domain not found") ∧
    checkResponse errorResponseNoElemDoc =
      Except.error NCError.unknownApiError := by
  refine ⟨rfl, rfl, ?_, ?_⟩
  · exact (make_request_error_mapping errorResponseDoc rfl).1
      (Elem.mk ncNS "Error" [("Number", "2019166")] (some "Domain not found") [])
      [] "2019166" "Domain not found" rfl rfl rfl (by decide)
  · exact (make_request_error_mapping errorResponseNoElemDoc rfl).2 rfl

/-- Claim C2: when a well-formed success response lacks the expected
result element of the operation entirely, the operation returns a result
whose list fields are empty and whose boolean fields are false, and
raises no error. -/
theorem missing_result_element_defaults (d sld tld : String) (root : Elem)
    (hex : extract_domain_parts d = Except.ok (sld, tld))
    (hst : ¬ root.attr? "Status" = some "ERROR")
    (h1 : root.find ncNS "DomainDNSGetListResult" = none)
    (h2 : root.find ncNS "DomainDNSGetHostsResult" = none)
    (h3 : root.find ncNS "DomainDNSSetHostsResult" = none)
    (h4 : root.find ncNS "DomainDNSSetDefaultResult" = none) :
    get_dns_list_op d root = Except.ok
      (⟨"namecheap.domains.dns.getList", [("SLD", sld), ("TLD", tld)]⟩,
       [("Nameservers", RVal.strList [])]) ∧
    get_hosts_op d root = Except.ok
      (⟨"namecheap.domains.dns.getHosts", [("SLD", sld), ("TLD", tld)]⟩,
       [("Hosts", RVal.hostList [])]) ∧
    set_hosts_parse root =
      [("IsSuccess", RVal.b false), ("Hosts", RVal.hostList [])] ∧
    set_default_parse root = [("Updated", RVal.b false)] := by
  refine ⟨?_, ?_, ?_, ?_⟩
  · rw [get_dns_list_op_ok d sld tld root hex hst]
    simp only [get_dns_list_parse, h1]
  · rw [get_hosts_op_ok d sld tld root hex hst]
    simp only [get_hosts_parse, h2]
  · simp only [set_hosts_parse, h3]
  · simp only [set_default_parse, h4]

/-- Witness for C2 at a success response carrying no result element. -/
theorem missing_result_element_defaults_witness :
    extract_domain_parts "example.com" = Except.ok ("example", "com") ∧
    ¬ okEmptyDoc.attr? "Status" = some "ERROR" ∧
    get_dns_list_op "example.com" okEmptyDoc = Except.ok
      (⟨"namecheap.domains.dns.getList", [("SLD", "example"), ("TLD", "com")]⟩,
       [("Nameservers", RVal.strList [])]) ∧
    get_hosts_op "example.com" okEmptyDoc = Except.ok
      (⟨"namecheap.domains.dns.getHosts", [("SLD", "example"), ("TLD", "com")]⟩,
       [("Hosts", RVal.hostList [])]) ∧
    set_hosts_parse okEmptyDoc =
      [("IsSuccess", RVal.b false), ("Hosts", RVal.hostList [])] ∧
    set_default_parse okEmptyDoc = [("Updated", RVal.b false)] := by
  have h := missing_result_element_defaults "example.com" "example" "com"
    okEmptyDoc rfl (by decide) rfl rfl rfl rfl
  exact ⟨rfl, by decide, h.1, h.2.1, h.2.2.1, h.2.2.2⟩

/-- Claim C4: on a valid domain name the custom-nameserver operation
proceeds with exactly twelve nameservers, sending them comma-joined as a
single parameter value, and fails locally with the ValueError, for every
possible response, when thirteen or more are supplied. -/
theorem set_custom_nameserver_limit (d sld tld : String)
    (ns12 ns13 : List String)
    (hex : extract_domain_parts d = Except.ok (sld, tld))
    (h12 : ns12.length = 12) (h13 : 13 ≤ ns13.length) :
    (∀ root : Elem, ¬ root.attr? "Status" = some "ERROR" →
      set_custom_op d ns12 root = Except.ok
        (⟨"namecheap.domains.dns.setCustom",
          [("SLD", sld), ("TLD", tld),
           ("Nameservers", String.intercalate "," ns12)]⟩,
         set_custom_parse root)) ∧
    (∀ root : Elem, set_custom_op d ns13 root =
      Except.error (NCError.valueError "Maximum of 12 nameservers allowed")) := by
  constructor
  · intro root hst
    simp only [set_custom_op, hex, checkResponse_ok root hst,
      if_neg (by omega : ¬ ns12.length > 12)]
  · intro root
    simp only [set_custom_op, hex, if_pos (by omega : ns13.length > 12)]

/-- Witness for C4 at twelve and thirteen concrete nameservers. -/
theorem set_custom_nameserver_limit_witness :
    extract_domain_parts "example.com" = Except.ok ("example", "com") ∧
    (["n1", "n2", "n3", "n4", "n5", "n6", "n7", "n8", "n9", "n10", "n11",
      "n12"] : List String).length = 12 ∧
    13 ≤ (["n1", "n2", "n3", "n4", "n5", "n6", "n7", "n8", "n9", "n10",
      "n11", "n12", "n13"] : List String).length ∧
    set_custom_op "example.com"
      ["n1", "n2", "n3", "n4", "n5", "n6", "n7", "n8", "n9", "n10", "n11",
       "n12"] okEmptyDoc = Except.ok
      (⟨"namecheap.domains.dns.setCustom",
        [("SLD", "example"), ("TLD", "com"),
         ("Nameservers", "n1,n2,n3,n4,n5,n6,n7,n8,n9,n10,n11,n12")]⟩,
       [("Updated", RVal.b false)]) ∧
    set_custom_op "example.com"
      ["n1", "n2", "n3", "n4", "n5", "n6", "n7", "n8", "n9", "n10", "n11",
       "n12", "n13"] okEmptyDoc =
      Except.error (NCError.valueError "Maximum of 12 nameservers allowed") := by
  have h := set_custom_nameserver_limit "example.com" "example" "com"
    ["n1", "n2", "n3", "n4", "n5", "n6", "n7", "n8", "n9", "n10", "n11", "n12"]
    ["n1", "n2", "n3", "n4", "n5", "n6", "n7", "n8", "n9", "n10", "n11", "n12",
     "n13"] rfl rfl (by decide)
  refine ⟨rfl, rfl, by decide, ?_, h.2 okEmptyDoc⟩
  exact (h.1 okEmptyDoc (by decide)).trans (by rfl)

/-- Claim C3: the add_host composite performs a get_hosts call for the
domain and then exactly one set_hosts call whose record list is the
caller-supplied new records followed by every pre-existing record parsed
from the get response, in that order. -/
theorem add_host_get_then_set (d sld tld : String)
    (newHosts : List HostRecord) (getRoot setRoot result : Elem)
    (hex : extract_domain_parts d = Except.ok (sld, tld))
    (hg : ¬ getRoot.attr? "Status" = some "ERROR")
    (hres : getRoot.find ncNS "DomainDNSGetHostsResult" = some result)
    (hs : ¬ setRoot.attr? "Status" = some "ERROR") :
    add_host d newHosts getRoot setRoot = Except.ok
      ([ClientCall.getHostsCall d,
        ClientCall.setHostsCall d (newHosts ++ parse_host_records result)],
       set_hosts_parse setRoot) := by
  have hd : dictHosts (get_hosts_parse getRoot) = parse_host_records result := by
    simp only [get_hosts_parse, hres, dictHosts]
    rfl
  simp only [add_host, get_hosts_op_ok d sld tld getRoot hex hg, hd,
    set_hosts_op_ok d sld tld (newHosts ++ parse_host_records result)
      setRoot hex hs]

/-- Witness for C3: against a canned get response holding three records
and a canned namespaced set response, the composite issues the get and
then one set whose list is the new record followed by the three
pre-existing records. -/
theorem add_host_get_then_set_witness :
    extract_domain_parts "example.com" = Except.ok ("example", "com") ∧
    ¬ getHostsDoc.attr? "Status" = some "ERROR" ∧
    getHostsDoc.find ncNS "DomainDNSGetHostsResult" = some getHostsResultElem ∧
    ¬ setHostsDoc.attr? "Status" = some "ERROR" ∧
    add_host "example.com" [recNew] getHostsDoc setHostsDoc = Except.ok
      ([ClientCall.getHostsCall "example.com",
        ClientCall.setHostsCall "example.com" [recNew, recA1, recA2, recMX]],
       [("Domain", RVal.s "example.com"), ("IsSuccess", RVal.b true),
        ("Hosts", RVal.hostList [])]) := by
  have h := add_host_get_then_set "example.com" "example" "com" [recNew]
    getHostsDoc setHostsDoc getHostsResultElem rfl (by decide) rfl (by decide)
  exact ⟨rfl, by decide, rfl, by decide, h.trans (by rfl)⟩

/-- Claim C5: for every string containing at least one dot the domain
splitter succeeds, and rejoining the returned label and suffix with a dot
reproduces the input. -/
theorem extract_domain_parts_roundtrip (d : String) (h : '.' ∈ d.data) :
    ∃ sld tld, extract_domain_parts d = Except.ok (sld, tld) ∧
      sld ++ "." ++ tld = d := by
  have hlen := two_le_splitOnChar_length '.' d.data h
  match hs : splitOnChar '.' d.data with
  | [] => rw [hs] at hlen; simp at hlen
  | [p] => rw [hs] at hlen; simp at hlen
  | p0 :: p1 :: rest =>
    refine ⟨String.mk p0, String.mk (joinWith '.' (p1 :: rest)), ?_, ?_⟩
    · simp only [extract_domain_parts, hs]
    · apply String.ext
      have hj := joinWith_splitOnChar '.' d.data
      rw [hs] at hj
      calc (String.mk p0 ++ "." ++ String.mk (joinWith '.' (p1 :: rest))).data
          = p0 ++ ['.'] ++ joinWith '.' (p1 :: rest) := by
            simp [String.data_append]
        _ = p0 ++ '.' :: joinWith '.' (p1 :: rest) := by simp
        _ = joinWith '.' (p0 :: p1 :: rest) := rfl
        _ = d.data := hj

/-- Witness for C5 at the string a.b.c, which splits into the label a and
the suffix b.c. -/
theorem extract_domain_parts_roundtrip_witness :
    ('.' ∈ ("a.b.c" : String).data) ∧
    (∃ sld tld, extract_domain_parts "a.b.c" = Except.ok (sld, tld) ∧
      sld ++ "." ++ tld = "a.b.c") ∧
    extract_domain_parts "a.b.c" = Except.ok ("a", "b.c") := by
  exact ⟨by decide, extract_domain_parts_roundtrip "a.b.c" (by decide), rfl⟩

/-- Claim C6: for every string containing no dot the domain splitter
fails with the ValueError naming the invalid domain, so it returns no
pair and no request is built from it. -/
theorem extract_domain_parts_no_dot (d : String) (h : '.' ∉ d.data) :
    extract_domain_parts d =
      Except.error (NCError.valueError ("Invalid domain name: " ++ d)) := by
  simp only [extract_domain_parts, splitOnChar_not_mem '.' d.data h]

/-- Witness for C6 at the dotless string localhost. -/
theorem extract_domain_parts_no_dot_witness :
    ('.' ∉ ("localhost" : String).data) ∧
    extract_domain_parts "localhost" =
      Except.error (NCError.valueError "Invalid domain name: localhost") := by
  refine ⟨by decide, ?_⟩
  exact (extract_domain_parts_no_dot "localhost" (by decide)).trans (by rfl)

/-- Claim C7: a get_hosts success response whose result element is
present parses to one record per namespaced host element, in document
order, each field taken from the attribute of the same name with the
empty string as default, so a missing MXPref attribute yields an empty
preference field. -/
theorem get_hosts_parses_each_host_element (d sld tld : String)
    (root result : Elem)
    (hex : extract_domain_parts d = Except.ok (sld, tld))
    (hst : ¬ root.attr? "Status" = some "ERROR")
    (hres : root.find ncNS "DomainDNSGetHostsResult" = some result) :
    get_hosts_op d root = Except.ok
      (⟨"namecheap.domains.dns.getHosts", [("SLD", sld), ("TLD", tld)]⟩,
       [("Domain", RVal.s (result.attrD "Domain" "")),
        ("IsUsingOurDNS", RVal.b (strIsTrue (result.attrD "IsUsingOurDNS" ""))),
        ("Hosts", RVal.hostList (parse_host_records result))]) ∧
    (parse_host_records result).length =
      (result.findall ncNS "host").length ∧
    (∀ (i : Nat) (hi : i < (result.findall ncNS "host").length)
        (hi2 : i < (parse_host_records result).length),
      (parse_host_records result).get ⟨i, hi2⟩ =
        { hostId := ((result.findall ncNS "host").get ⟨i, hi⟩).attrD "HostId" "",
          name := ((result.findall ncNS "host").get ⟨i, hi⟩).attrD "Name" "",
          rtype := ((result.findall ncNS "host").get ⟨i, hi⟩).attrD "Type" "",
          address := ((result.findall ncNS "host").get ⟨i, hi⟩).attrD "Address" "",
          mxPref := ((result.findall ncNS "host").get ⟨i, hi⟩).attrD "MXPref" "",
          ttl := ((result.findall ncNS "host").get ⟨i, hi⟩).attrD "TTL" "" }) := by
  refine ⟨?_, ?_, ?_⟩
  · rw [get_hosts_op_ok d sld tld root hex hst]
    simp only [get_hosts_parse, hres]
  · simp [parse_host_records]
  · intro i hi hi2
    simp [parse_host_records, List.get_eq_getElem, List.getElem_map]

/-- Witness for C7 at a canned response holding two A host elements and
one MX host element: three records in document order, the MX preference
populated from MXPref and the A records defaulting to the empty
preference. -/
theorem get_hosts_parses_each_host_element_witness :
    extract_domain_parts "example.com" = Except.ok ("example", "com") ∧
    ¬ getHostsDoc.attr? "Status" = some "ERROR" ∧
    getHostsDoc.find ncNS "DomainDNSGetHostsResult" = some getHostsResultElem ∧
    get_hosts_op "example.com" getHostsDoc = Except.ok
      (⟨"namecheap.domains.dns.getHosts",
        [("SLD", "example"), ("TLD", "com")]⟩,
       [("Domain", RVal.s "example.com"), ("IsUsingOurDNS", RVal.b true),
        ("Hosts", RVal.hostList [recA1, recA2, recMX])]) ∧
    (parse_host_records getHostsResultElem).length =
      (getHostsResultElem.findall ncNS "host").length ∧
    recA1.mxPref = "" ∧ recA2.mxPref = "" ∧ recMX.mxPref = "10" := by
  have h := get_hosts_parses_each_host_element "example.com" "example" "com"
    getHostsDoc getHostsResultElem rfl (by decide) rfl
  exact ⟨rfl, by decide, rfl, h.1.trans (by rfl), h.2.1, rfl, rfl, rfl⟩

/-- Claim C8: when the set_hosts result element is present, the echoed
record list is non-empty only when an unnamespaced search finds raw host
tags among its descendants; on a fully namespaced document the list is
empty even though namespaced host elements are present. -/
theorem set_hosts_echo_requires_unnamespaced (root result : Elem)
    (hres : root.find ncNS "DomainDNSSetHostsResult" = some result) :
    (∀ hs, (set_hosts_parse root).lookup "Hosts" =
        some (RVal.hostList hs) → hs ≠ [] →
        ¬ result.findall "" "host" = []) ∧
    ((∀ e ∈ Elem.descendants result, e.ns = ncNS) →
        (set_hosts_parse root).lookup "Hosts" = some (RVal.hostList [])) := by
  have hlookup : (set_hosts_parse root).lookup "Hosts" =
      some (RVal.hostList
        (match result.findall "" "host" with
         | [] => []
         | _ :: _ => parse_host_records result)) := by
    simp only [set_hosts_parse, hres]
    rfl
  constructor
  · intro hs hlk hne hempty
    rw [hlookup, hempty] at hlk
    simp at hlk
    exact hne hlk
  · intro hall
    have hempty : result.findall "" "host" = [] := by
      unfold Elem.findall
      rw [List.filter_eq_nil_iff]
      intro e he
      have hns := hall e he
      have hfalse : (ncNS == "") = false := by decide
      rw [hns, hfalse, Bool.false_and]
      simp
    rw [hlookup, hempty]

/-- Witness for C8 at the fully namespaced canned set_hosts response: it
contains namespaced host elements, yet the echoed record list is
empty. -/
theorem set_hosts_echo_requires_unnamespaced_witness :
    setHostsDoc.find ncNS "DomainDNSSetHostsResult" = some setHostsResultElem ∧
    (∀ e ∈ Elem.descendants setHostsResultElem, e.ns = ncNS) ∧
    (setHostsResultElem.findall ncNS "host").length = 2 ∧
    (set_hosts_parse setHostsDoc).lookup "Hosts" =
      some (RVal.hostList []) := by
  refine ⟨rfl, by decide, rfl, ?_⟩
  exact (set_hosts_echo_requires_unnamespaced setHostsDoc
    setHostsResultElem rfl).2 (by decide)

/-- Counterexample to claim C9 as stated: it is not the case that every
environment value other than the literal string false selects the
sandbox endpoint; the value production is not false, yet the production
endpoint is selected. -/
theorem sandbox_selection_counterexample :
    ¬ (∀ v : Option String, ¬ v = some "false" →
        base_url (sandbox_env_flag v) =
          "https://api.sandbox.namecheap.com/xml.response") := by
  intro hclaim
  have h := hclaim (some "production") (by decide)
  exact absurd h (by decide)

/-- Claim C9 as amended: the sandbox endpoint is selected exactly when
the environment value is unset or lowercases to the string true; every
other value, not only the literal false, selects production. -/
theorem sandbox_selection_amended (v : Option String) :
    base_url (sandbox_env_flag v) =
      "https://api.sandbox.namecheap.com/xml.response" ↔
    (v = none ∨ ∃ s, v = some s ∧ strLower s = "true") := by
  cases v with
  | none =>
    constructor
    · intro _
      exact Or.inl rfl
    · intro _
      rfl
  | some s =>
    by_cases hs : strLower s = "true"
    · have hflag : sandbox_env_flag (some s) = true := by
        simp [sandbox_env_flag, strIsTrue, hs]
      rw [hflag]
      constructor
      · intro _
        exact Or.inr ⟨s, rfl, hs⟩
      · intro _
        rfl
    · have hflag : sandbox_env_flag (some s) = false := by
        simp [sandbox_env_flag, strIsTrue, hs]
      rw [hflag]
      constructor
      · intro hurl
        exact absurd hurl (by decide)
      · rintro (h | ⟨t, ht, hlow⟩)
        · cases h
        · cases ht
          exact absurd hlow hs

/-- Claim C10: the tool wrappers for default and custom DNS invoke client
methods named set_default_dns and set_custom_dns, which the client class
does not define, so for every input their attribute lookup fails before
any request is built and the tools can never complete. -/
theorem dns_tool_wrappers_attr_lookup_fails (domain_name : String)
    (nameservers : List String) :
    tool_set_default_dns domain_name =
      Except.error (NCError.attrError "set_default_dns") ∧
    tool_set_custom_dns domain_name nameservers =
      Except.error (NCError.attrError "set_custom_dns") := by
  exact ⟨rfl, rfl⟩

end NamecheapMCP
